import Mathlib

/-!
Verification of the voice-assistant command dispatcher
(`voice_assistant.py`): the intent classifier `process_command`, the
note handler `write_note`, the reminder handler `set_reminder`, the
power-action handlers `shutdown_system` / `restart_system`, and the
small-talk fallback, shallowly embedded as pure Lean functions.

Python string operations are modelled on `List Char`:
`str.lower` / `str.strip` / `str.replace` / `in` (substring) /
`str.startswith` / `str.split()` / `int()` are embedded below.  All
definitions are executable so that concrete runs can be checked by
`decide` / `rfl`.
-/

namespace VoiceAssistant

/-- Whether `pat` occurs as a contiguous run starting at some position of `s`. -/
def containsSubAux (pat : List Char) : List Char → Bool
  | [] => List.isPrefixOf pat []
  | c :: rest => List.isPrefixOf pat (c :: rest) || containsSubAux pat rest

/-- Python `pat in s` (substring containment, contiguous). -/
def containsSub (s pat : String) : Bool :=
  containsSubAux pat.data s.data

/-- Python `s.startswith(pat)`. -/
def startsWithS (s pat : String) : Bool :=
  List.isPrefixOf pat.data s.data

/-- Python `s.lower()` (ASCII case mapping, as used by the program). -/
def pyLower (s : String) : String :=
  String.mk (s.data.map Char.toLower)

/-- Python `s.strip()`: drop whitespace from both ends. -/
def pyStrip (s : String) : String :=
  String.mk (((s.data.dropWhile Char.isWhitespace).reverse.dropWhile
    Char.isWhitespace).reverse)

/-- One left-to-right, non-overlapping pass of Python
`s.replace(pat, rep)` over a character list; the replacement is not
rescanned.  Structural recursion on a fuel argument: every step consumes
at least one character of `s` and one unit of fuel, so with fuel
`s.length` the fuel never runs out before `s` does.  (The program only
replaces non-empty patterns; `pat = []` is treated as matching
nowhere.) -/
def replaceAllFuel (pat rep : List Char) : Nat → List Char → List Char
  | 0, s => s
  | _ + 1, [] => []
  | fuel + 1, c :: rest =>
    if pat ≠ [] ∧ List.isPrefixOf pat (c :: rest) then
      rep ++ replaceAllFuel pat rep fuel ((c :: rest).drop pat.length)
    else
      c :: replaceAllFuel pat rep fuel rest

/-- Python `s.replace(pat, rep)`. -/
def pyReplace (s pat rep : String) : String :=
  String.mk (replaceAllFuel pat.data rep.data s.data.length s.data)

/-- Python `s.split()` with no argument: split on whitespace runs,
dropping empty tokens. -/
def pySplit (s : String) : List String :=
  ((s.data.splitOnP Char.isWhitespace).filter (fun t => t ≠ [])).map String.mk

/-- Value of a list of decimal digits. -/
def digitsToNat (ds : List Char) : Nat :=
  ds.foldl (fun n c => n * 10 + (c.toNat - 48)) 0

/-- Python `int(token)` on a whitespace-free token: an optional sign
followed by one or more decimal digits (digit-group underscores are not
modelled); `none` models a raised `ValueError`. -/
def pyToInt? (t : String) : Option Int :=
  match t.data with
  | [] => none
  | '+' :: ds =>
    if ds ≠ [] ∧ ds.all Char.isDigit then some (digitsToNat ds) else none
  | '-' :: ds =>
    if ds ≠ [] ∧ ds.all Char.isDigit then some (-(digitsToNat ds : Int)) else none
  | ds =>
    if ds.all Char.isDigit then some (digitsToNat ds) else none

/-- The closed set of intents `process_command` dispatches to, each with
the argument string the code extracts. -/
inductive Intent where
  | unknown
  | exitIntent
  | wikipediaLookup (topic : String)
  | openWebsite (key : String)
  | webSearch (q : String)
  | tellTime
  | tellDate
  | writeNoteIntent
  | setReminderIntent
  | takePhoto
  | shutdownIntent
  | restartIntent
  | smallTalkIntent (text : String)
  deriving DecidableEq, Repr

/-- The exit keywords of `process_command` (line 281), in source order. -/
def exitKeywords : List String := ["exit", "quit", "goodbye", "stop", "bye"]

/-- Insertion order of `WEBSITE_MAP` (lines 114-119), which is the
iteration order of `WEBSITE_MAP.keys()` in the shortcut-fallback loop. -/
def websiteKeys : List String := ["google", "youtube", "github", "gmail"]

/-- The website-shortcut fallback loop of `process_command`
(lines 344-350): the first key of `WEBSITE_MAP` that occurs in the text
together with the substring `"open"` wins; with no such key the text
falls to `small_talk`. -/
def websiteFallback (cmd : String) : Intent :=
  match websiteKeys.find? (fun k => containsSub cmd k && containsSub cmd "open") with
  | some k => .openWebsite k
  | none => .smallTalkIntent cmd

/-- The rule chain of `process_command` (lines 274-350) on the already
lowercased text `cmd`, as a pure classifier: each branch of the Python
if-chain becomes one `if`, in source order, returning the intent and the
argument string the code passes to the handler.  The final website
shortcut loop is `websiteFallback`. -/
def classifyCmd (cmd : String) : Intent :=
  if cmd = "" then .unknown
  else if exitKeywords.any (fun k => containsSub cmd k) then .exitIntent
  else if containsSub cmd "wikipedia" then
    .wikipediaLookup (pyStrip (pyReplace cmd "wikipedia" ""))
  else if startsWithS cmd "open " then
    .openWebsite (pyStrip (pyReplace cmd "open " ""))
  else if containsSub cmd "search for" || startsWithS cmd "search " then
    .webSearch (pyStrip (pyReplace (pyReplace cmd "search for" "") "search" ""))
  else if containsSub cmd "google " then
    .webSearch (pyStrip (pyReplace cmd "google" ""))
  else if containsSub cmd "time" then .tellTime
  else if containsSub cmd "date" then .tellDate
  else if containsSub cmd "write a note" || containsSub cmd "take note" ||
      containsSub cmd "note" then .writeNoteIntent
  else if containsSub cmd "remind me" || containsSub cmd "set reminder" then
    .setReminderIntent
  else if containsSub cmd "take a photo" || containsSub cmd "take photo" ||
      containsSub cmd "capture photo" then .takePhoto
  else if startsWithS cmd "who is " || startsWithS cmd "what is " ||
      startsWithS cmd "tell me about " then
    .wikipediaLookup (pyStrip (pyReplace (pyReplace (pyReplace cmd
      "who is" "") "what is" "") "tell me about" ""))
  else if containsSub cmd "shutdown" then .shutdownIntent
  else if containsSub cmd "restart" || containsSub cmd "reboot" then .restartIntent
  else websiteFallback cmd

/-- The full classifier: `process_command` lowercases its input before the rule chain
(line 275); there is no `strip()`. -/
def classify (command : String) : Intent :=
  classifyCmd (pyLower command)

/-- What the main loop (lines 356-366) does with a dispatched command:
only `SystemExit`, raised by the exit branch, breaks the loop. -/
inductive LoopSignal where
  | keepRunning
  | exitLoop
  deriving DecidableEq, Repr

/-- The loop control flow after one dispatch: the exit branch raises
`SystemExit` (line 283) which `main` catches and turns into `break`
(lines 363-364); every other intent falls through to the next
iteration. -/
def signalOf : Intent → LoopSignal
  | .exitIntent => .exitLoop
  | _ => .keepRunning

/-- Fallback handler `small_talk` (lines 265-271): the one message spoken for the given
(already lowercased) command text. -/
def small_talk (command : String) : String :=
  if containsSub command "how are you" then
    "I am a program, but I\x27m functioning correctly. How can I help you?"
  else if containsSub command "your name" || containsSub command "who are you" then
    "I am your voice assistant. You can call me Assistant."
  else
    "Sorry, I didn\x27t understand that. I can open websites, search Google, fetch Wikipedia, set reminders, write notes, and run system commands."

/-- A timer (`threading.Timer`) started by `set_reminder` (lines 210-214):
its delay in seconds and the message its callback will speak. -/
structure ReminderTimer where
  delaySeconds : Int
  message : String
  deriving DecidableEq, Repr

/-- Handler `set_reminder` (lines 191-215) as a function of the two sub-dialogue
responses: the message response and the minutes response.  Returns the
spoken messages in order and the timer started, if any.  The parse loop
(lines 201-206) takes the first whitespace-delimited token `int()`
accepts; `None` surviving the loop aborts with a parse-failure message
(lines 207-209). -/
def set_reminder (message minsText : String) : List String × Option ReminderTimer :=
  if message = "" then
    (["What should I remind you about?",
      "No message provided. Reminder canceled."], none)
  else
    match (pySplit minsText).findSome? pyToInt? with
    | none =>
      (["What should I remind you about?",
        "In how many minutes should I remind you?",
        "I couldn\x27t parse the time in minutes. Reminder canceled."], none)
    | some m =>
      (["What should I remind you about?",
        "In how many minutes should I remind you?",
        "Okay, I will remind you in " ++ toString m ++ " minutes."],
       some ⟨m * 60, "Reminder: " ++ message⟩)

/-- JSON values, as `json.load` returns them: the Note Store file is
supposed to hold an array of note objects, but any JSON value can be
present. -/
inductive Json where
  | null
  | bool (b : Bool)
  | num (n : Int)
  | str (s : String)
  | arr (xs : List Json)
  | obj (fields : List (String × Json))

/-- The state of the `notes.json` file as `write_note` observes it:
absent (`os.path.exists` false, line 162), present but `open`/`json.load`
raises (caught at lines 163-167), or present with `json.load` returning
the parsed value `v`. -/
inductive FileState where
  | missing
  | unreadable
  | parsed (v : Json)

/-- The note dict built at line 160. -/
def noteJson (ts content : String) : Json :=
  .obj [("time", .str ts), ("content", .str content)]

/-- Everything observable about one run of `write_note`: the resulting
file state, how many times the file was opened for reading, the spoken
messages in order, and whether `open_file` was invoked at line 176. -/
structure WriteNoteRun where
  fs : FileState
  fileReads : Nat
  spoken : List String
  openedFile : Bool

/-- Handler `write_note` (lines 154-176) as a function of the content response,
the timestamp, the yes/no response of the final sub-dialogue, and the
prior file state.  `Except.error` models a Python exception escaping the
handler: `notes.append(note)` at line 168 raises `AttributeError` when
`json.load` returned a non-list value, and nothing catches it. -/
def write_note (content ts ans : String) (fs : FileState) :
    Except String WriteNoteRun :=
  if content = "" then
    .ok ⟨fs, 0, ["What should I write in the note?",
                 "No content provided; note canceled."], false⟩
  else
    let loaded : Json := match fs with
      | .missing => .arr []
      | .unreadable => .arr []
      | .parsed v => v
    let reads : Nat := match fs with
      | .missing => 0
      | _ => 1
    match loaded with
    | .arr xs =>
      .ok ⟨.parsed (.arr (xs ++ [noteJson ts content])), reads,
           ["What should I write in the note?",
            "Note saved.",
            "Do you want me to open the notes file? Say yes or no."],
           containsSub (pyLower ans) "yes"⟩
    | _ => .error "AttributeError: object has no attribute append"

/-- The OS power primitives `shutdown_system` / `restart_system` run via
`os.system` (lines 243-247 and 257-260). -/
inductive OsAction where
  | shutdownWindows
  | shutdownUnix
  | restartWindows
  | restartUnix
  deriving DecidableEq, Repr

/-- Possible `platform.system()` outcomes the handlers branch on. -/
inductive Platform where
  | windows
  | linux
  | darwin
  | other
  deriving DecidableEq, Repr

/-- The confirmation test of lines 240 and 254: the lowercased response
contains `"yes"` or `"confirm"` as a substring. -/
def confirmsAction (ans : String) : Bool :=
  containsSub (pyLower ans) "yes" || containsSub (pyLower ans) "confirm"

/-- Handler `shutdown_system` (lines 237-249) as a function of the platform and
the confirmation response: spoken messages in order and the OS actions
run. -/
def shutdown_system (plat : Platform) (ans : String) :
    List String × List OsAction :=
  if confirmsAction ans then
    ("Do you really want to shutdown the computer? Say \x27yes\x27 to confirm." ::
     "Shutting down..." ::
     [],
     match plat with
     | .windows => [.shutdownWindows]
     | .linux => [.shutdownUnix]
     | .darwin => [.shutdownUnix]
     | .other => [])
  else
    (["Do you really want to shutdown the computer? Say \x27yes\x27 to confirm.",
      "Shutdown canceled."], [])

/-- Handler `restart_system` (lines 251-262), same shape as `shutdown_system`. -/
def restart_system (plat : Platform) (ans : String) :
    List String × List OsAction :=
  if confirmsAction ans then
    ("Do you really want to restart the computer? Say \x27yes\x27 to confirm." ::
     "Restarting..." ::
     [],
     match plat with
     | .windows => [.restartWindows]
     | .linux => [.restartUnix]
     | .darwin => [.restartUnix]
     | .other => [])
  else
    (["Do you really want to restart the computer? Say \x27yes\x27 to confirm.",
      "Restart canceled."], [])

/-! ### Helper lemmas -/

theorem findSome_eq_none_of_all {α β : Type} (f : α → Option β) :
    ∀ l : List α, (∀ a ∈ l, f a = none) → l.findSome? f = none := by
  intro l
  induction l with
  | nil => intro _; rfl
  | cons a as ih =>
    intro h
    have ha : f a = none := h a (List.mem_cons_self a as)
    have has : ∀ x ∈ as, f x = none := fun x hx => h x (List.mem_cons_of_mem a hx)
    simp [List.findSome?_cons, ha, ih has]

theorem findSome_eq_of_first {α β : Type} (f : α → Option β) :
    ∀ (l : List α) (i : Nat) (hi : i < l.length) (v : β),
      f (l.get ⟨i, hi⟩) = some v →
      (∀ j (hj : j < i), f (l.get ⟨j, Nat.lt_trans hj hi⟩) = none) →
      l.findSome? f = some v := by
  intro l
  induction l with
  | nil => intro i hi; exact absurd hi (by simp)
  | cons a as ih =>
    intro i hi v hv hprev
    cases i with
    | zero =>
      simp only [List.get] at hv
      simp [List.findSome?_cons, hv]
    | succ n =>
      have ha : f a = none := hprev 0 (Nat.succ_pos n)
      have hn : n < as.length := Nat.lt_of_succ_lt_succ hi
      have hv' : f (as.get ⟨n, hn⟩) = some v := hv
      have hprev' : ∀ j (hj : j < n), f (as.get ⟨j, Nat.lt_trans hj hn⟩) = none :=
        fun j hj => hprev (j + 1) (Nat.succ_lt_succ hj)
      simp [List.findSome?_cons, ha, ih n hn v hv' hprev']

theorem find_eq_first {α : Type} (p : α → Bool) :
    ∀ l : List α, (∃ a ∈ l, p a = true) →
      ∃ (i : Nat) (hi : i < l.length),
        l.find? p = some (l.get ⟨i, hi⟩) ∧ p (l.get ⟨i, hi⟩) = true ∧
        ∀ j (hj : j < i), p (l.get ⟨j, Nat.lt_trans hj hi⟩) = false := by
  intro l
  induction l with
  | nil => rintro ⟨a, ha, _⟩; exact absurd ha (List.not_mem_nil a)
  | cons a as ih =>
    rintro ⟨b, hb, hpb⟩
    by_cases hpa : p a = true
    · exact ⟨0, Nat.succ_pos _, by simp [List.find?_cons, hpa], hpa,
        fun j hj => absurd hj (Nat.not_lt_zero j)⟩
    · have hpa' : p a = false := Bool.eq_false_iff.mpr hpa
      have hbas : b ∈ as := by
        rcases List.mem_cons.mp hb with h | h
        · exact absurd (h ▸ hpb) hpa
        · exact h
      obtain ⟨i, hi, hfind, hpi, hfirst⟩ := ih ⟨b, hbas, hpb⟩
      refine ⟨i + 1, Nat.succ_lt_succ hi, ?_, hpi, ?_⟩
      · simp [List.find?_cons, hpa', hfind]
      · intro j hj
        cases j with
        | zero => exact hpa'
        | succ m => exact hfirst m (Nat.lt_of_succ_lt_succ hj)

theorem websiteFallback_ne_unknown (cmd : String) :
    websiteFallback cmd ≠ Intent.unknown := by
  unfold websiteFallback
  intro hc
  split at hc
  · exact Intent.noConfusion hc
  · exact Intent.noConfusion hc

theorem classifyCmd_ne_unknown {cmd : String} (h : cmd ≠ "") :
    classifyCmd cmd ≠ Intent.unknown := by
  unfold classifyCmd
  rw [if_neg h]
  by_cases c2 : (exitKeywords.any fun k => containsSub cmd k) = true
  · rw [if_pos c2]; simp
  rw [if_neg c2]
  by_cases c3 : containsSub cmd "wikipedia" = true
  · rw [if_pos c3]; simp
  rw [if_neg c3]
  by_cases c4 : startsWithS cmd "open " = true
  · rw [if_pos c4]; simp
  rw [if_neg c4]
  by_cases c5 : (containsSub cmd "search for" || startsWithS cmd "search ") = true
  · rw [if_pos c5]; simp
  rw [if_neg c5]
  by_cases c6 : containsSub cmd "google " = true
  · rw [if_pos c6]; simp
  rw [if_neg c6]
  by_cases c7 : containsSub cmd "time" = true
  · rw [if_pos c7]; simp
  rw [if_neg c7]
  by_cases c8 : containsSub cmd "date" = true
  · rw [if_pos c8]; simp
  rw [if_neg c8]
  by_cases c9 : (containsSub cmd "write a note" || containsSub cmd "take note" ||
      containsSub cmd "note") = true
  · rw [if_pos c9]; simp
  rw [if_neg c9]
  by_cases c10 : (containsSub cmd "remind me" || containsSub cmd "set reminder") = true
  · rw [if_pos c10]; simp
  rw [if_neg c10]
  by_cases c11 : (containsSub cmd "take a photo" || containsSub cmd "take photo" ||
      containsSub cmd "capture photo") = true
  · rw [if_pos c11]; simp
  rw [if_neg c11]
  by_cases c12 : (startsWithS cmd "who is " || startsWithS cmd "what is " ||
      startsWithS cmd "tell me about ") = true
  · rw [if_pos c12]; simp
  rw [if_neg c12]
  by_cases c13 : containsSub cmd "shutdown" = true
  · rw [if_pos c13]; simp
  rw [if_neg c13]
  by_cases c14 : (containsSub cmd "restart" || containsSub cmd "reboot") = true
  · rw [if_pos c14]; simp
  rw [if_neg c14]
  exact websiteFallback_ne_unknown cmd

/-! ### Claims -/

/-- C1: for every confirmation response to ShutdownSystem or
RestartSystem that contains neither "yes" nor "confirm" as a
case-insensitive substring, no OS power primitive is invoked and a
cancellation message is spoken; since this holds for every platform and
every non-confirming response, the OS primitive is invoked only when the
response contains one of those substrings. -/
theorem c1_power_actions_gated (plat : Platform) (ans : String)
    (h : confirmsAction ans = false) :
    shutdown_system plat ans =
      (["Do you really want to shutdown the computer? Say \x27yes\x27 to confirm.",
        "Shutdown canceled."], []) ∧
    restart_system plat ans =
      (["Do you really want to restart the computer? Say \x27yes\x27 to confirm.",
        "Restart canceled."], []) := by
  constructor <;> simp [shutdown_system, restart_system, h]

/-- C1, witnessed at the concrete response "no thanks" on Windows. -/
theorem c1_power_actions_gated_witness :
    confirmsAction "no thanks" = false ∧
    (shutdown_system Platform.windows "no thanks" =
      (["Do you really want to shutdown the computer? Say \x27yes\x27 to confirm.",
        "Shutdown canceled."], []) ∧
     restart_system Platform.windows "no thanks" =
      (["Do you really want to restart the computer? Say \x27yes\x27 to confirm.",
        "Restart canceled."], [])) :=
  ⟨by decide, c1_power_actions_gated Platform.windows "no thanks" (by decide)⟩

/-- C2: every non-empty lowercased command text containing an exit
keyword classifies as the exit intent — the exit rule is the first
non-empty rule, so no other rule is reached — and the main loop is
signalled to terminate. -/
theorem c2_exit_keyword_wins (cmd : String) (hne : cmd ≠ "")
    (hkw : (exitKeywords.any fun k => containsSub cmd k) = true) :
    classifyCmd cmd = Intent.exitIntent ∧
    signalOf (classifyCmd cmd) = LoopSignal.exitLoop := by
  have h1 : classifyCmd cmd = Intent.exitIntent := by
    unfold classifyCmd
    rw [if_neg hne, if_pos hkw]
  exact ⟨h1, by rw [h1]; rfl⟩

/-- C2, witnessed at "please exit now". -/
theorem c2_exit_keyword_wins_witness :
    classifyCmd "please exit now" = Intent.exitIntent ∧
    signalOf (classifyCmd "please exit now") = LoopSignal.exitLoop :=
  c2_exit_keyword_wins "please exit now" (by decide) (by decide)

/-- C3: the minutes parsed by SetReminder are the integer value of the
first whitespace-delimited token that parses as an integer (all other
tokens ignored), and when no token parses the handler speaks a
parse-failure message and schedules nothing. -/
theorem c3_reminder_first_int_token (msg resp : String) (hmsg : msg ≠ "") :
    ((∀ t ∈ pySplit resp, pyToInt? t = none) →
      (set_reminder msg resp).2 = none ∧
      "I couldn\x27t parse the time in minutes. Reminder canceled." ∈
        (set_reminder msg resp).1) ∧
    (∀ (i : Nat) (hi : i < (pySplit resp).length) (v : Int),
      pyToInt? ((pySplit resp).get ⟨i, hi⟩) = some v →
      (∀ (j : Nat) (hj : j < i),
        pyToInt? ((pySplit resp).get ⟨j, Nat.lt_trans hj hi⟩) = none) →
      (set_reminder msg resp).2 = some ⟨v * 60, "Reminder: " ++ msg⟩) := by
  constructor
  · intro hall
    have hn : (pySplit resp).findSome? pyToInt? = none :=
      findSome_eq_none_of_all pyToInt? (pySplit resp) hall
    unfold set_reminder
    rw [if_neg hmsg, hn]
    simp
  · intro i hi v hv hprev
    have hs : (pySplit resp).findSome? pyToInt? = some v :=
      findSome_eq_of_first pyToInt? (pySplit resp) i hi v hv hprev
    unfold set_reminder
    rw [if_neg hmsg, hs]

/-- C3, witnessed at the response "please in 5 minutes ok": the token
"5" is the first integer-parsable token and yields 5 minutes. -/
theorem c3_reminder_first_int_token_witness :
    (set_reminder "meeting" "please in 5 minutes ok").2 =
      some ⟨300, "Reminder: meeting"⟩ := by
  have h := (c3_reminder_first_int_token "meeting" "please in 5 minutes ok"
      (by decide)).2 2 (by decide) 5 (by decide)
      (by intro j hj; interval_cases j <;> rfl)
  exact h

/-- C4: WriteNote with empty content speaks a cancellation message and
returns; for every prior state of the Note Store file it performs no
read and no write, leaving the stored notes exactly as they were. -/
theorem c4_write_note_empty_noop (ts ans : String) (fs : FileState) :
    write_note "" ts ans fs =
      .ok ⟨fs, 0, ["What should I write in the note?",
                   "No content provided; note canceled."], false⟩ := by
  rfl

/-- C5, counterexample: `process_command` never trims.  The
whitespace-only input " " does not normalize to empty text: it reaches
the small-talk fallback, which speaks the generic fallback message, so
a handler runs and something is spoken. -/
theorem c5_whitespace_not_trimmed_cex :
    classify " " = Intent.smallTalkIntent " " ∧
    small_talk " " =
      "Sorry, I didn\x27t understand that. I can open websites, search Google, fetch Wikipedia, set reminders, write notes, and run system commands." := by
  constructor <;> rfl

/-- C5, amended: the raw command is lowercased but not trimmed before
classification; text is ignored as a no-op exactly when it is empty
after lowercasing, and a whitespace-only input instead reaches the
SmallTalk fallback. -/
theorem c5_lowercase_only_empty_noop :
    (∀ s : String, classify s = Intent.unknown ↔ pyLower s = "") ∧
    classify " " = Intent.smallTalkIntent " " := by
  constructor
  · intro s
    constructor
    · intro h
      by_contra hne
      exact classifyCmd_ne_unknown hne h
    · intro h
      unfold classify
      rw [h]
      rfl
  · rfl

/-- C6, counterexample: `set_reminder` never checks positivity.  The
minutes-response "0" parses to 0 and a timer is started with
delayMinutes = 0, which is not strictly greater than zero. -/
theorem c6_zero_minutes_scheduled_cex :
    (set_reminder "meeting" "0").2 = some ⟨0, "Reminder: meeting"⟩ ∧
    ¬ ((0 : Int) > 0) := by
  constructor
  · rfl
  · decide

/-- C6, amended: every timer that SetReminder actually starts carries a
non-empty message of the form "Reminder: {message}" with the message
response non-empty, and its delay is 60 times the first
integer-parsable token of the minutes response — which may be zero or
negative, since the code applies no positivity check. -/
theorem c6_scheduled_reminder_shape (msg resp : String) (t : ReminderTimer)
    (h : (set_reminder msg resp).2 = some t) :
    msg ≠ "" ∧ t.message = "Reminder: " ++ msg ∧ t.message ≠ "" ∧
    ∃ v : Int, (pySplit resp).findSome? pyToInt? = some v ∧
      t.delaySeconds = v * 60 := by
  unfold set_reminder at h
  by_cases hm : msg = ""
  · rw [if_pos hm] at h
    simp at h
  · rw [if_neg hm] at h
    cases hfs : (pySplit resp).findSome? pyToInt? with
    | none => rw [hfs] at h; simp at h
    | some v =>
      rw [hfs] at h
      simp only [Option.some.injEq] at h
      have ht : t = ⟨v * 60, "Reminder: " ++ msg⟩ := h.symm
      subst ht
      refine ⟨hm, rfl, ?_, v, rfl, rfl⟩
      intro he
      have hd := congrArg String.data he
      rw [String.data_append] at hd
      exact absurd (List.append_eq_nil.mp hd).1 (by decide)

/-- C6, witnessed at message "meeting" and minutes-response
"in 2 minutes". -/
theorem c6_scheduled_reminder_shape_witness :
    ("meeting" : String) ≠ "" ∧
    (ReminderTimer.mk 120 "Reminder: meeting").message = "Reminder: " ++ "meeting" ∧
    (ReminderTimer.mk 120 "Reminder: meeting").message ≠ "" ∧
    ∃ v : Int, (pySplit "in 2 minutes").findSome? pyToInt? = some v ∧
      (ReminderTimer.mk 120 "Reminder: meeting").delaySeconds = v * 60 :=
  c6_scheduled_reminder_shape "meeting" "in 2 minutes"
    ⟨120, "Reminder: meeting"⟩ (by decide)

/-- C7, counterexample: the argument of the "who is"/"what is"/"tell me
about" rule is not the remainder after the matched prefix.  The code
removes every occurrence of all three phrases: "what is what is love"
yields the argument "love", not "what is love". -/
theorem c7_wiki_prefix_strip_cex :
    classifyCmd "what is what is love" = Intent.wikipediaLookup "love" ∧
    ("love" : String) ≠ "what is love" := by
  constructor
  · rfl
  · decide

/-- C7, amended: for every command text starting with "who is ",
"what is ", or "tell me about " on which no earlier classifier rule
fires, classification yields WikipediaLookup with argument equal to the
text with every occurrence of "who is", "what is" and "tell me about"
removed (in that order, without trailing spaces) and then trimmed —
not just the matched prefix. -/
theorem c7_wiki_prefix_strips_all_occurrences (cmd : String) (hne : cmd ≠ "")
    (hx : (exitKeywords.any fun k => containsSub cmd k) = false)
    (hw : containsSub cmd "wikipedia" = false)
    (ho : startsWithS cmd "open " = false)
    (hs : (containsSub cmd "search for" || startsWithS cmd "search ") = false)
    (hg : containsSub cmd "google " = false)
    (ht : containsSub cmd "time" = false)
    (hd : containsSub cmd "date" = false)
    (hn : (containsSub cmd "write a note" || containsSub cmd "take note" ||
      containsSub cmd "note") = false)
    (hr : (containsSub cmd "remind me" || containsSub cmd "set reminder") = false)
    (hp : (containsSub cmd "take a photo" || containsSub cmd "take photo" ||
      containsSub cmd "capture photo") = false)
    (hq : (startsWithS cmd "who is " || startsWithS cmd "what is " ||
      startsWithS cmd "tell me about ") = true) :
    classifyCmd cmd = Intent.wikipediaLookup
      (pyStrip (pyReplace (pyReplace (pyReplace cmd "who is" "") "what is" "")
        "tell me about" "")) := by
  unfold classifyCmd
  rw [if_neg hne, hx, hw, ho, hs, hg, ht, hd, hn, hr, hp, hq]
  simp

/-- C7 amended, witnessed at "tell me about the moon", whose argument is
"the moon". -/
theorem c7_wiki_prefix_strips_all_occurrences_witness :
    classifyCmd "tell me about the moon" = Intent.wikipediaLookup "the moon" :=
  (c7_wiki_prefix_strips_all_occurrences "tell me about the moon"
    (by decide) (by decide) (by decide) (by decide) (by decide) (by decide)
    (by decide) (by decide) (by decide) (by decide) (by decide) (by decide)).trans
    (by decide)

/-- C8: the "time" rule sits after the search rules and before the
"date" and note rules, so a text that contains "time" together with
"note" or "date" and fires no earlier rule classifies as TellTime,
not as WriteNote or TellDate. -/
theorem c8_time_rule_priority (cmd : String) (hne : cmd ≠ "")
    (hx : (exitKeywords.any fun k => containsSub cmd k) = false)
    (hw : containsSub cmd "wikipedia" = false)
    (ho : startsWithS cmd "open " = false)
    (hs : (containsSub cmd "search for" || startsWithS cmd "search ") = false)
    (hg : containsSub cmd "google " = false)
    (ht : containsSub cmd "time" = true)
    (hnd : containsSub cmd "note" = true ∨ containsSub cmd "date" = true) :
    classifyCmd cmd = Intent.tellTime := by
  unfold classifyCmd
  rw [if_neg hne, hx, hw, ho, hs, hg, ht]
  simp

/-- C8, witnessed at "note the time", which contains both "time" and
"note" and classifies as TellTime. -/
theorem c8_time_rule_priority_witness :
    classifyCmd "note the time" = Intent.tellTime :=
  c8_time_rule_priority "note the time" (by decide) (by decide) (by decide)
    (by decide) (by decide) (by decide) (by decide) (Or.inl (by decide))

/-- C9, counterexample: a Note Store whose content is valid JSON but not
an array — here the object `{}` — survives `json.load`, so the
`except` of lines 163-167 does not fire; `notes.append(note)` then
raises `AttributeError`, which nothing catches, and the write fails
with the exception propagating past the handler. -/
theorem c9_nonarray_note_store_cex :
    write_note "buy milk" "2026-10-12T10:00:00" "no"
      (FileState.parsed (Json.obj [])) =
      Except.error "AttributeError: object has no attribute append" := by
  rfl

/-- C9, amended: WriteNote with non-empty content degrades gracefully to
an empty in-memory list when the Note Store file is missing or fails to
load, and appends to the stored array when the file holds a JSON array;
but content that parses as a non-array JSON value makes the append
raise, so corruption to valid non-array JSON does fail the write. -/
theorem c9_note_store_tolerance (content ts ans : String)
    (h : content ≠ "") :
    (write_note content ts ans FileState.missing =
      .ok ⟨.parsed (.arr [noteJson ts content]), 0,
           ["What should I write in the note?", "Note saved.",
            "Do you want me to open the notes file? Say yes or no."],
           containsSub (pyLower ans) "yes"⟩) ∧
    (write_note content ts ans FileState.unreadable =
      .ok ⟨.parsed (.arr [noteJson ts content]), 1,
           ["What should I write in the note?", "Note saved.",
            "Do you want me to open the notes file? Say yes or no."],
           containsSub (pyLower ans) "yes"⟩) ∧
    (∀ xs : List Json,
      write_note content ts ans (FileState.parsed (.arr xs)) =
      .ok ⟨.parsed (.arr (xs ++ [noteJson ts content])), 1,
           ["What should I write in the note?", "Note saved.",
            "Do you want me to open the notes file? Say yes or no."],
           containsSub (pyLower ans) "yes"⟩) := by
  refine ⟨?_, ?_, fun xs => ?_⟩ <;> simp [write_note, h]

/-- C9 amended, witnessed at content "buy milk" on a missing file and on
a file holding the empty array. -/
theorem c9_note_store_tolerance_witness :
    (write_note "buy milk" "t0" "no" FileState.missing =
      .ok ⟨.parsed (.arr [noteJson "t0" "buy milk"]), 0,
           ["What should I write in the note?", "Note saved.",
            "Do you want me to open the notes file? Say yes or no."],
           containsSub (pyLower "no") "yes"⟩) ∧
    (write_note "buy milk" "t0" "no" (FileState.parsed (.arr [])) =
      .ok ⟨.parsed (.arr ([] ++ [noteJson "t0" "buy milk"])), 1,
           ["What should I write in the note?", "Note saved.",
            "Do you want me to open the notes file? Say yes or no."],
           containsSub (pyLower "no") "yes"⟩) :=
  ⟨(c9_note_store_tolerance "buy milk" "t0" "no" (by decide)).1,
   (c9_note_store_tolerance "buy milk" "t0" "no" (by decide)).2.2 []⟩

/-- C10: when the shortcut fallback is reached and the text contains
"open" together with at least one Website Shortcut Table key — both
matched as plain substrings — the chosen argument is the first matching
key in the fixed table order google, youtube, github, gmail. -/
theorem c10_shortcut_fallback_first_key (cmd : String) (hne : cmd ≠ "")
    (hx : (exitKeywords.any fun k => containsSub cmd k) = false)
    (hw : containsSub cmd "wikipedia" = false)
    (ho : startsWithS cmd "open " = false)
    (hs : (containsSub cmd "search for" || startsWithS cmd "search ") = false)
    (hg : containsSub cmd "google " = false)
    (ht : containsSub cmd "time" = false)
    (hd : containsSub cmd "date" = false)
    (hn : (containsSub cmd "write a note" || containsSub cmd "take note" ||
      containsSub cmd "note") = false)
    (hr : (containsSub cmd "remind me" || containsSub cmd "set reminder") = false)
    (hp : (containsSub cmd "take a photo" || containsSub cmd "take photo" ||
      containsSub cmd "capture photo") = false)
    (hq : (startsWithS cmd "who is " || startsWithS cmd "what is " ||
      startsWithS cmd "tell me about ") = false)
    (hsd : containsSub cmd "shutdown" = false)
    (hrb : (containsSub cmd "restart" || containsSub cmd "reboot") = false)
    (hop : containsSub cmd "open" = true)
    (hkey : ∃ k ∈ websiteKeys, containsSub cmd k = true) :
    ∃ (i : Nat) (hi : i < websiteKeys.length),
      classifyCmd cmd = Intent.openWebsite (websiteKeys.get ⟨i, hi⟩) ∧
      containsSub cmd (websiteKeys.get ⟨i, hi⟩) = true ∧
      ∀ (j : Nat) (hj : j < i),
        containsSub cmd (websiteKeys.get ⟨j, Nat.lt_trans hj hi⟩) = false := by
  have hred : classifyCmd cmd = websiteFallback cmd := by
    unfold classifyCmd
    rw [if_neg hne, hx, hw, ho, hs, hg, ht, hd, hn, hr, hp, hq, hsd, hrb]
    simp
  obtain ⟨k, hk, hck⟩ := hkey
  have hex : ∃ a ∈ websiteKeys,
      (fun k => containsSub cmd k && containsSub cmd "open") a = true :=
    ⟨k, hk, by simp [hck, hop]⟩
  obtain ⟨i, hi, hfind, hpi, hfirst⟩ := find_eq_first _ websiteKeys hex
  refine ⟨i, hi, ?_, ?_, ?_⟩
  · rw [hred]
    unfold websiteFallback
    rw [hfind]
  · have h2 := hpi
    simp only [Bool.and_eq_true] at h2
    exact h2.1
  · intro j hj
    have hpj := hfirst j hj
    simpa [hop] using hpj

/-- C10, witnessed at "reopen youtube and gmail": "open" matches inside
"reopen", and of the table keys present ("youtube" and "gmail") the
earlier one in table order, "youtube", is chosen. -/
theorem c10_shortcut_fallback_first_key_witness :
    ∃ (i : Nat) (hi : i < websiteKeys.length),
      classifyCmd "reopen youtube and gmail" =
        Intent.openWebsite (websiteKeys.get ⟨i, hi⟩) ∧
      containsSub "reopen youtube and gmail" (websiteKeys.get ⟨i, hi⟩) = true ∧
      ∀ (j : Nat) (hj : j < i),
        containsSub "reopen youtube and gmail"
          (websiteKeys.get ⟨j, Nat.lt_trans hj hi⟩) = false :=
  c10_shortcut_fallback_first_key "reopen youtube and gmail"
    (by decide) (by decide) (by decide) (by decide) (by decide) (by decide)
    (by decide) (by decide) (by decide) (by decide) (by decide) (by decide)
    (by decide) (by decide) (by decide) ⟨"youtube", by decide, by decide⟩

end VoiceAssistant
